import Mathlib

/-!
# Verification of the PDF signature library's coordinate and history core

A shallow embedding of the repository's coordinate normalization and
placement engine together with the editor component's history/undo state
machine, and proofs of the specified properties about them.

Numbers are modelled as rationals (`ℚ`): the JavaScript source manipulates
IEEE doubles, but every operation involved (comparison, min/max, the
four arithmetic operations) is exact on the inputs of interest, so `ℚ`
is a faithful model away from NaN; where the source explicitly tests for
`NaN`/non-numbers the embedding uses `Option ℚ` with `none` for the
non-numeric case.

Two namespaces mirror the two source layers:

* `Lib` — the helper module (`src/unnamed/part_001`): `percentToPoint`,
  `fetchSignaturePositions`'s per-entry resolution, `drawTextAtPosition`,
  `drawFallbackMetadataBlock`.
* `Editor` — the `PDFSignatureEditor` component
  (`src/src/PDFSignatureEditor.tsx`): its history/undo/reset handlers
  and the signature-embedding mutation, with the external pdf-lib calls
  abstracted as an environment of fallible step results.
-/

namespace Spec2Proof

namespace Lib

/-- An rgb color value, as produced by the pdf-lib `rgb` helper. -/
structure Color where
  r : ℚ
  g : ℚ
  b : ℚ
deriving DecidableEq, Repr

/-- `rgb(0.05, 0.05, 0.05)`, the primary text color of the helper module. -/
def TEXT_PRIMARY : Color := ⟨1/20, 1/20, 1/20⟩

/-- `rgb(0.35, 0.35, 0.35)`, the secondary (date) text color. -/
def TEXT_SECONDARY : Color := ⟨7/20, 7/20, 7/20⟩

/-- `SIGNATURE_DEFAULT_HEIGHT = 65` from the helper module. -/
def SIGNATURE_DEFAULT_HEIGHT : ℚ := 65

/-- The module-level `percentToPoint(value, span)`: non-numbers and `NaN`
map to `0`; numeric input is clamped into `[0, 100]` and scaled by
`span / 100`.  `none` stands for `undefined`/non-numeric/`NaN` input. -/
def percentToPoint (value : Option ℚ) (span : ℚ) : ℚ :=
  match value with
  | none => 0
  | some v => min (max v 0) 100 / 100 * span

/-- Page metrics handed to `fetchSignaturePositions`: true page width and
height in PDF points. -/
structure PageMetrics where
  width : ℚ
  height : ℚ
deriving DecidableEq, Repr

/-- A raw coordinate entry as returned by the coordinate API:
`{x?, y?, width?, height?, pageNumber?, type?}`.  All fields optional,
`none` standing for `undefined`. -/
structure RawEntry where
  x : Option ℚ
  y : Option ℚ
  width : Option ℚ
  height : Option ℚ
  pageNumber : Option ℤ
  type : Option String
deriving DecidableEq, Repr

/-- The resolved `ElementPosition` of the helper module: absolute PDF-point
coordinates plus optional size, the (raw) page reference, and the type tag. -/
structure ElementPosition where
  x : ℚ
  y : ℚ
  width : Option ℚ
  height : Option ℚ
  page : ℤ
  type : Option String
deriving DecidableEq, Repr

/-- JavaScript array indexing `l[i]` for a possibly negative index:
`undefined` (`none`) when out of range. -/
def listGetInt {α : Type} (l : List α) (i : ℤ) : Option α :=
  if 0 ≤ i then l[i.toNat]? else none

/-- The local `normalizeDimension(value, max)` of `fetchSignaturePositions`:
`undefined` stays `undefined`; a value `≤ 100` is a legacy percentage of the
span; a larger value is already in points. -/
def normalizeDimension (value : Option ℚ) (max : ℚ) : Option ℚ :=
  match value with
  | none => none
  | some v => if v ≤ 100 then some (v / 100 * max) else some v

/-- The page-metrics lookup performed by `fetchSignaturePositions` for one
entry: `pageMetrics[(pageNumber ?? 1) - 1]`. -/
def metricAt (pageMetrics : List PageMetrics) (e : RawEntry) : Option PageMetrics :=
  listGetInt pageMetrics (e.pageNumber.getD 1 - 1)

/-- The body of the `entries.map` callback in `fetchSignaturePositions`
(`src/unnamed/part_001`): destructure with defaults `x = 0, y = 0`, look up
the page metrics (throwing when missing or zero — JavaScript falsiness),
classify the entry as legacy-percent when `x ≤ 100 && y ≤ 100`, and resolve.
The local `percentToPoint` there is the unclamped `(percent / 100) * total`,
inlined here. -/
def resolveEntry (pageMetrics : List PageMetrics) (e : RawEntry) :
    Except String ElementPosition :=
  let x := e.x.getD 0
  let y := e.y.getD 0
  let page := e.pageNumber.getD 1
  match metricAt pageMetrics e with
  | none => .error ("Missing page metrics for page " ++ toString page)
  | some m =>
    if m.width = 0 ∨ m.height = 0 then
      .error ("Missing page metrics for page " ++ toString page)
    else if x ≤ 100 ∧ y ≤ 100 then
      let absX := x / 100 * m.width
      let topPx := y / 100 * m.height
      let absHeight := normalizeDimension e.height m.height
      let h := absHeight.getD 0
      let absY := m.height - topPx - h
      .ok ⟨absX, absY, normalizeDimension e.width m.width, absHeight, page, e.type⟩
    else
      .ok ⟨x * m.width, y * m.height, normalizeDimension e.width m.width,
        normalizeDimension e.height m.height, page, e.type⟩

/-- `fetchSignaturePositions`' resolution phase over a whole payload: the
`entries.map` loop, with the first thrown error aborting the batch. -/
def fetchSignaturePositions (pageMetrics : List PageMetrics)
    (entries : List RawEntry) : Except String (List ElementPosition) :=
  entries.mapM (resolveEntry pageMetrics)

/-- A text run drawn onto a page by `page.drawText`. -/
structure DrawnText where
  text : String
  x : ℚ
  y : ℚ
  size : ℚ
  color : Color
deriving DecidableEq, Repr

/-- One draw operation recorded on a page. -/
inductive PageOp where
  | text (t : DrawnText)
  | image (x y w h : ℚ)
deriving DecidableEq, Repr

/-- A pdf-lib page, modelled as its ordered list of draw operations. -/
abbrev PdfPage := List PageOp

/-- `drawTextAtPosition(pages, text, position, size, color)`: a missing or
empty text, or a missing position, silently draws nothing; otherwise a
1-based page number (`page >= 1`) is mapped to index `page - 1` while a
smaller raw value is used unchanged, and a missing page at the resolved
index throws `Invalid page index`. -/
def drawTextAtPosition (pages : List PdfPage) (text : Option String)
    (position : Option ElementPosition) (size : ℚ) (color : Color) :
    Except String (List PdfPage) :=
  match text, position with
  | some t, some pos =>
    if t = "" then .ok pages
    else
      let desiredIndex : ℤ := if pos.page ≥ 1 then pos.page - 1 else pos.page
      match listGetInt pages desiredIndex with
      | none =>
        .error ("Invalid page index " ++ toString pos.page ++ " for text placement")
      | some page =>
        .ok (pages.set desiredIndex.toNat
          (page ++ [PageOp.text ⟨t, pos.x, pos.y, size, color⟩]))
  | _, _ => .ok pages

/-- The `meta` argument of `drawFallbackMetadataBlock`:
`{signerName?, signerEmail?, dateLabel?}`. -/
structure FallbackMeta where
  signerName : Option String
  signerEmail : Option String
  dateLabel : Option String
deriving DecidableEq, Repr

/-- `drawFallbackMetadataBlock(page, signaturePosition, meta)`, modelled as
the ordered list of text runs it draws onto the page.  `blockHeight = 10`,
`fontSize = 11.5`, `lineHeight = 10`; the cursor starts at
`signaturePosition.y - blockHeight - 1` and each drawn line advances it down
by `lineHeight`.  A missing or empty string is falsy and draws nothing. -/
def drawFallbackMetadataBlock (signaturePosition : ElementPosition)
    (meta : FallbackMeta) : List DrawnText :=
  let blockHeight : ℚ := 10
  let x := signaturePosition.x
  let currentY0 := signaturePosition.y - blockHeight - 1
  let fontSize : ℚ := 23/2
  let lineHeight : ℚ := 10
  let step1 : List DrawnText × ℚ :=
    match meta.signerName with
    | some n =>
      if n = "" then ([], currentY0)
      else ([⟨n, x, currentY0, fontSize, TEXT_PRIMARY⟩], currentY0 - lineHeight)
    | none => ([], currentY0)
  let step2 : List DrawnText × ℚ :=
    match meta.signerEmail with
    | some e =>
      if e = "" then step1
      else (step1.1 ++ [⟨e, x, step1.2, fontSize, TEXT_PRIMARY⟩], step1.2 - lineHeight)
    | none => step1
  match meta.dateLabel with
  | some d =>
    if d = "" then step2.1
    else step2.1 ++ [⟨d, x, step2.2, fontSize - 1/2, TEXT_SECONDARY⟩]
  | none => step2.1

/-- Specification-side description of a stacked text block: lines placed at
a fixed `x`, the first at `y0`, each further line exactly `lineH` below the
previous one.  Used to state the layout property of the fallback blocks. -/
def stackTexts (x y0 lineH : ℚ) : List (String × ℚ × Color) → List DrawnText
  | [] => []
  | (t, sz, c) :: rest => ⟨t, x, y0, sz, c⟩ :: stackTexts x (y0 - lineH) lineH rest

/-- The line contributed by an optional metadata string: nothing when the
string is missing or empty (JavaScript falsiness), one line otherwise. -/
def optLine (o : Option String) (sz : ℚ) (c : Color) : List (String × ℚ × Color) :=
  match o with
  | none => []
  | some s => if s = "" then [] else [(s, sz, c)]

end Lib

namespace LibV2

/-!
The second, near-duplicate version of the helper module
(`src/unnamed/part_002`).  Its `fetchSignaturePositions` takes a single
optional `pageMetrics` record and resolves every entry through the clamped
module-level `percentToPoint` — no bottom-origin flip and no height
subtraction.  Its module-level constants and `percentToPoint` are identical
to `Lib`'s, so `Lib.percentToPoint` is reused.
-/

/-- `COORDINATE_REFERENCE_WIDTH = 600`: the normalized capture viewport
width. -/
def COORDINATE_REFERENCE_WIDTH : ℚ := 600

/-- `COORDINATE_REFERENCE_HEIGHT = COORDINATE_REFERENCE_WIDTH * (11 / 8.5)`:
the matching height under a letter-sized aspect. -/
def COORDINATE_REFERENCE_HEIGHT : ℚ := COORDINATE_REFERENCE_WIDTH * (11 / (17/2))

/-- `referenceWidth = pageMetrics?.width ?? COORDINATE_REFERENCE_WIDTH`. -/
def referenceWidth (pageMetrics : Option Lib.PageMetrics) : ℚ :=
  (pageMetrics.map Lib.PageMetrics.width).getD COORDINATE_REFERENCE_WIDTH

/-- `referenceHeight = pageMetrics?.height ?? COORDINATE_REFERENCE_HEIGHT`. -/
def referenceHeight (pageMetrics : Option Lib.PageMetrics) : ℚ :=
  (pageMetrics.map Lib.PageMetrics.height).getD COORDINATE_REFERENCE_HEIGHT

/-- The local `normalizeDimension(value, span)` of this version:
non-numbers and `NaN` stay `undefined`; a value `> 100` is already in
points; otherwise the clamped `percentToPoint` conversion applies. -/
def normalizeDimension (value : Option ℚ) (span : ℚ) : Option ℚ :=
  match value with
  | none => none
  | some v => if 100 < v then some v else some (Lib.percentToPoint (some v) span)

/-- The body of the `entries.map` callback in this version's
`fetchSignaturePositions`: `absoluteX = percentToPoint(x, referenceWidth)`,
`absoluteY = percentToPoint(y, referenceHeight)` — the top-origin percent
value scaled directly, with no flip to bottom-left origin and no height
subtraction. -/
def resolveEntry (pageMetrics : Option Lib.PageMetrics) (e : Lib.RawEntry) :
    Lib.ElementPosition :=
  ⟨Lib.percentToPoint e.x (referenceWidth pageMetrics),
    Lib.percentToPoint e.y (referenceHeight pageMetrics),
    normalizeDimension e.width (referenceWidth pageMetrics),
    normalizeDimension e.height (referenceHeight pageMetrics),
    e.pageNumber.getD 1, e.type⟩

/-- This version's `fetchSignaturePositions` resolution phase over a whole
payload: a total `entries.map` (no per-entry failure). -/
def fetchSignaturePositions (pageMetrics : Option Lib.PageMetrics)
    (entries : List Lib.RawEntry) : List Lib.ElementPosition :=
  entries.map (resolveEntry pageMetrics)

end LibV2

namespace Editor

/-- The editor component's `ElementPosition`
(`src/src/PDFSignatureEditor.tsx`): point coordinates plus a 0-indexed page
number. -/
structure ElementPosition where
  x : ℚ
  y : ℚ
  page : ℤ
deriving DecidableEq, Repr

/-- A byte buffer (a `Blob`'s contents). -/
abbrev Bytes := List ℕ

/-- One entry of the editor's `pdfHistory` state: the displayed pdf
reference (data/blob URL string) and the modified blob at that time. -/
structure HistoryEntry where
  pdf : String
  blob : Option Bytes
deriving DecidableEq, Repr

/-- The editor component's document-related state: the active pdf
reference, the modified blob, the undo history, the out-of-band original
pdf reference, the displayed page, and the `enableUndo` prop. -/
structure EditorState where
  pdf : Option String
  modifiedPdfBlob : Option Bytes
  pdfHistory : List HistoryEntry
  originalPdf : Option String
  pageNum : ℕ
  enableUndo : Bool
deriving DecidableEq, Repr

/-- A toast notification surfaced to the user. -/
inductive Toast where
  | info (msg : String)
  | success (msg : String)
  | warning (msg : String)
  | error (msg : String)
deriving DecidableEq, Repr

/-- `saveToHistory()`: when a pdf is loaded and undo is enabled, append the
current `(pdf, modifiedPdfBlob)` pair to the history stack. -/
def saveToHistory (s : EditorState) : EditorState :=
  match s.pdf with
  | some p =>
    if s.enableUndo then
      { s with pdfHistory := s.pdfHistory ++ [⟨p, s.modifiedPdfBlob⟩] }
    else s
  | none => s

/-- `handleUndo()`: with empty history, toast `Nothing to undo` and leave
the state unchanged; otherwise restore the last history entry as the active
pdf and blob and pop it. -/
def handleUndo (s : EditorState) : EditorState × Toast :=
  match s.pdfHistory.getLast? with
  | none => (s, .info "Nothing to undo")
  | some last =>
    ({ s with
        pdf := some last.pdf
        modifiedPdfBlob := last.blob
        pdfHistory := s.pdfHistory.dropLast },
      .success "Last action undone")

/-- `handleReset()`: when an original pdf exists, make it active, clear the
modified blob, empty the history, and return to page 0. -/
def handleReset (s : EditorState) : EditorState :=
  match s.originalPdf with
  | none => s
  | some o =>
    { s with pdf := some o, modifiedPdfBlob := none, pdfHistory := [], pageNum := 0 }

/-- The page resolution inside `handleAddSignature`:
`pageIndex = signaturePosition ? signaturePosition.page : 0`, used directly
as a 0-based index into `pages`, with `Page ${pageIndex + 1} not found`
thrown when no such page exists. -/
def resolveTargetPage (numPages : ℕ) (signaturePosition : Option ElementPosition) :
    Except String ℤ :=
  let pageIndex : ℤ :=
    match signaturePosition with
    | some p => p.page
    | none => 0
  if 0 ≤ pageIndex ∧ pageIndex < (numPages : ℤ) then .ok pageIndex
  else .error ("Page " ++ toString (pageIndex + 1) ++ " not found")

/-- The results of the external, fallible steps of one signature-embedding
attempt: the signature-canvas emptiness check, `PDFDocument.load` (yielding
the page count), `embedPng`, the draw calls, and `pdfDoc.save` together
with `blobToURL` (yielding the new pdf reference and blob). -/
structure MutEnv where
  sigEmpty : Bool
  load : Except String ℕ
  embedPng : Except String Unit
  draw : Except String Unit
  save : Except String (String × Bytes)
deriving Repr

/-- The fallible body of `handleAddSignature`'s `try` block, in source
order: load the document, resolve the target page, embed the signature
image, draw, and re-encode. -/
def mutationPipeline (env : MutEnv) (signaturePosition : Option ElementPosition) :
    Except String (String × Bytes) := do
  let numPages ← env.load
  let _ ← resolveTargetPage numPages signaturePosition
  let _ ← env.embedPng
  let _ ← env.draw
  env.save

/-- `handleAddSignature()`: the three validation guards return with only a
toast; a failure anywhere in the `try` block is caught and leaves the state
untouched; on success `saveToHistory()` runs and the new pdf reference and
blob are published. -/
def handleAddSignature (signaturePosition : Option ElementPosition)
    (enableDragDrop : Bool) (env : MutEnv) (s : EditorState) : EditorState :=
  if env.sigEmpty then s
  else if signaturePosition.isNone && !enableDragDrop then s
  else if s.pdf.isNone then s
  else
    match mutationPipeline env signaturePosition with
    | .error _ => s
    | .ok (url, blob) =>
      let s1 := saveToHistory s
      { s1 with pdf := some url, modifiedPdfBlob := some blob }

/-- JavaScript's `String.prototype.trim`: strip whitespace from both ends.
(Defined structurally so that it evaluates by `decide`/`rfl`; Lean's own
`String.trim` does not kernel-reduce.) -/
def jsTrim (s : String) : String :=
  ⟨((s.data.dropWhile Char.isWhitespace).reverse.dropWhile Char.isWhitespace).reverse⟩

/-- The metadata text block `handleAddSignature` stacks below the signature
image (`PDFSignatureEditor.tsx`), as the ordered list of drawn text runs:
`sigHeight = 65`, `lineHeight = 10`, `fontSize = 11.5`, `leftPadding = 3`;
the email line first when non-blank, then the name line when non-blank,
then the date line always, each enabled line one `lineHeight` further below
`y - sigHeight`. -/
def editorMetadataBlock (x y : ℚ) (signerEmail signerName fullDate : String) :
    List Lib.DrawnText :=
  let sigHeight : ℚ := 65
  let lineHeight : ℚ := 10
  let fontSize : ℚ := 23/2
  let leftPadding : ℚ := 3
  let currentY := y - sigHeight
  let step1 : List Lib.DrawnText × ℚ :=
    if jsTrim signerEmail = "" then ([], 0)
    else ([⟨jsTrim signerEmail, x + leftPadding, currentY - lineHeight * (0 + 1),
      fontSize, Lib.TEXT_PRIMARY⟩], 1)
  let step2 : List Lib.DrawnText × ℚ :=
    if jsTrim signerName = "" then step1
    else (step1.1 ++ [⟨jsTrim signerName, x + leftPadding,
      currentY - lineHeight * (step1.2 + 1), fontSize, Lib.TEXT_PRIMARY⟩],
      step1.2 + 1)
  step2.1 ++ [⟨fullDate, x + leftPadding, currentY - lineHeight * (step2.2 + 1),
    fontSize - 1/2, Lib.TEXT_SECONDARY⟩]

/-- One user-level operation on the editor's document state. -/
inductive EditorOp where
  | addSignature (signaturePosition : Option ElementPosition)
      (enableDragDrop : Bool) (env : MutEnv)
  | undo
  | reset

/-- Apply one operation to the editor state. -/
def applyOp (s : EditorState) : EditorOp → EditorState
  | .addSignature pos edd env => handleAddSignature pos edd env s
  | .undo => (handleUndo s).1
  | .reset => handleReset s

/-- Run a sequence of operations. -/
def runOps (s : EditorState) (ops : List EditorOp) : EditorState :=
  ops.foldl applyOp s

/-- The state right after a successful initial load: the loaded pdf
reference is both the active snapshot and the out-of-band original, with
empty history and no modified blob. -/
def initialState (o : String) (enableUndo : Bool) : EditorState :=
  ⟨some o, none, [], some o, 0, enableUndo⟩

end Editor

/-! ### Concrete fixtures used by counterexamples and witnesses -/

/-- Page metrics `100 × 200` for a single-page document. -/
def mW : Lib.PageMetrics := ⟨100, 200⟩

/-- A percent-based entry at the bottom of the page with a positive height. -/
def eC1 : Lib.RawEntry := ⟨some 0, some 100, none, some 10, none, none⟩

/-- A plain percent-based entry with no size. -/
def eC2 : Lib.RawEntry := ⟨some 50, some 25, none, none, none, none⟩

/-- An entry classified as absolute (`x > 100`). -/
def eC3 : Lib.RawEntry := ⟨some 200, some 25, some 30, none, none, some "NAME"⟩

/-- A library position with raw page value `2`. -/
def posC4 : Lib.ElementPosition := ⟨5, 6, none, none, 2, none⟩

/-- An editor position with raw page value `2`. -/
def editorPosC4 : Editor.ElementPosition := ⟨0, 0, 2⟩

/-- An editor position with raw page value `5`. -/
def posPage5 : Editor.ElementPosition := ⟨0, 0, 5⟩

/-- An environment in which every external step of the mutation succeeds. -/
def envOk : Editor.MutEnv := ⟨false, .ok 1, .ok (), .ok (), .ok ("u1", [1])⟩

/-- An environment whose document decodes to three pages. -/
def envLoad3 : Editor.MutEnv := ⟨false, .ok 3, .ok (), .ok (), .ok ("u3", [3])⟩

/-- An editor state with a loaded document, one history entry and a
modified blob. -/
def sC5 : Editor.EditorState := ⟨some "docA", some [7], [⟨"h0", none⟩], some "orig", 0, true⟩

/-! ### Helper lemmas -/

/-- Resolution of an entry classified as legacy-percent. -/
theorem resolveEntry_percent (pm : List Lib.PageMetrics) (e : Lib.RawEntry)
    (m : Lib.PageMetrics) (hm : Lib.metricAt pm e = some m)
    (hz : ¬(m.width = 0 ∨ m.height = 0))
    (hxy : e.x.getD 0 ≤ 100 ∧ e.y.getD 0 ≤ 100) :
    Lib.resolveEntry pm e = .ok
      ⟨e.x.getD 0 / 100 * m.width,
        m.height - e.y.getD 0 / 100 * m.height
          - (Lib.normalizeDimension e.height m.height).getD 0,
        Lib.normalizeDimension e.width m.width,
        Lib.normalizeDimension e.height m.height,
        e.pageNumber.getD 1, e.type⟩ := by
  simp only [Lib.resolveEntry, hm]
  rw [if_neg hz, if_pos hxy]

/-- Resolution of an entry classified as absolute. -/
theorem resolveEntry_absolute (pm : List Lib.PageMetrics) (e : Lib.RawEntry)
    (m : Lib.PageMetrics) (hm : Lib.metricAt pm e = some m)
    (hz : ¬(m.width = 0 ∨ m.height = 0))
    (hxy : ¬(e.x.getD 0 ≤ 100 ∧ e.y.getD 0 ≤ 100)) :
    Lib.resolveEntry pm e = .ok
      ⟨e.x.getD 0 * m.width, e.y.getD 0 * m.height,
        Lib.normalizeDimension e.width m.width,
        Lib.normalizeDimension e.height m.height,
        e.pageNumber.getD 1, e.type⟩ := by
  simp only [Lib.resolveEntry, hm]
  rw [if_neg hz, if_neg hxy]

/-- The clamped conversion written over the destructured value with its
`undefined` default. -/
theorem percentToPoint_getD (ov : Option ℚ) (span : ℚ) :
    Lib.percentToPoint ov span = min (max (ov.getD 0) 0) 100 / 100 * span := by
  cases ov with
  | none =>
    show (0 : ℚ) = min (max 0 0) 100 / 100 * span
    norm_num
  | some v => rfl

/-! ### Claim theorems -/

/-- C10: `percentToPoint(value, span)` is total and returns
`(min(max(value, 0), 100) / 100) · span` for numeric input; a non-numeric
or `NaN` value yields `0`; and for every `span ≥ 0` the result lies in
`[0, span]`. -/
theorem claim_C10 (v : ℚ) (ov : Option ℚ) (span : ℚ) :
    Lib.percentToPoint (some v) span = min (max v 0) 100 / 100 * span
    ∧ Lib.percentToPoint none span = 0
    ∧ (0 ≤ span →
        0 ≤ Lib.percentToPoint ov span ∧ Lib.percentToPoint ov span ≤ span) := by
  refine ⟨rfl, rfl, fun hspan => ?_⟩
  cases ov with
  | none => exact ⟨le_refl 0, hspan⟩
  | some w =>
    have h0 : 0 ≤ min (max w 0) 100 := le_min (le_max_right w 0) (by norm_num)
    have h1 : min (max w 0) 100 ≤ 100 := min_le_right _ _
    constructor
    · exact mul_nonneg (div_nonneg h0 (by norm_num)) hspan
    · have hle : min (max w 0) 100 / 100 ≤ 1 := by
        rw [div_le_one (by norm_num : (0 : ℚ) < 100)]
        exact h1
      calc Lib.percentToPoint (some w) span
          = min (max w 0) 100 / 100 * span := rfl
        _ ≤ 1 * span := mul_le_mul_of_nonneg_right hle hspan
        _ = span := one_mul span

/-- Witness for C10 at the out-of-range numeric input `150` and span `10`. -/
theorem claim_C10_witness :
    0 ≤ (10 : ℚ)
    ∧ 0 ≤ Lib.percentToPoint (some 150) 10
    ∧ Lib.percentToPoint (some 150) 10 ≤ 10 :=
  ⟨by norm_num, (claim_C10 150 (some 150) 10).2.2 (by norm_num)⟩

/-- C2 counterexample: the claim's `absY` formula is false of the second
cited resolver (`src/unnamed/part_002`): for the percent entry
`x = 50, y = 25` on a `100 × 200` page, that resolver returns
`absoluteY = percentToPoint(25, 200) = 50` — the top-origin value scaled
directly — while the claimed formula
`pageHeight − (y/100)·pageHeight − targetHeight` gives `150`. -/
theorem claim_C2_counterexample :
    (LibV2.resolveEntry (some mW) eC2).y = 50
    ∧ mW.height - eC2.y.getD 0 / 100 * mW.height
        - (Lib.normalizeDimension eC2.height mW.height).getD 0 = 150
    ∧ (50 : ℚ) ≠ 150 := by
  refine ⟨?_, ?_, by norm_num⟩
  · norm_num [LibV2.resolveEntry, LibV2.referenceHeight, Lib.percentToPoint, eC2, mW]
  · norm_num [Lib.normalizeDimension, eC2, mW]

/-- C2 (amended): for an entry classified as percent (`x ≤ 100` and
`y ≤ 100`), the `part_001` resolver returns `absX = (x/100) · pageWidth`
and `absY = pageHeight − (y/100) · pageHeight − targetHeight`, where
`targetHeight` is the entry's resolved height, defaulting to `0` when the
height is absent; the `part_002` resolver instead returns
`absX = (min(max(x,0),100)/100) · referenceWidth` and
`absY = (min(max(y,0),100)/100) · referenceHeight` — the clamped top-origin
value scaled directly, with no bottom-origin flip and no height
subtraction. -/
theorem claim_C2_amended (pm : List Lib.PageMetrics) (e : Lib.RawEntry)
    (m : Lib.PageMetrics) (hm : Lib.metricAt pm e = some m)
    (hw : m.width ≠ 0) (hh : m.height ≠ 0)
    (hx : e.x.getD 0 ≤ 100) (hy : e.y.getD 0 ≤ 100) :
    (∃ pos, Lib.resolveEntry pm e = .ok pos
      ∧ pos.x = e.x.getD 0 / 100 * m.width
      ∧ pos.y = m.height - e.y.getD 0 / 100 * m.height
          - (Lib.normalizeDimension e.height m.height).getD 0
      ∧ pos.height = Lib.normalizeDimension e.height m.height
      ∧ (e.height = none → (Lib.normalizeDimension e.height m.height).getD 0 = 0))
    ∧ (∀ pm2 : Option Lib.PageMetrics,
        (LibV2.resolveEntry pm2 e).x
            = min (max (e.x.getD 0) 0) 100 / 100 * LibV2.referenceWidth pm2
          ∧ (LibV2.resolveEntry pm2 e).y
            = min (max (e.y.getD 0) 0) 100 / 100 * LibV2.referenceHeight pm2) := by
  constructor
  · refine ⟨_, resolveEntry_percent pm e m hm (by tauto) ⟨hx, hy⟩, rfl, rfl, rfl, ?_⟩
    intro hnone
    simp [Lib.normalizeDimension, hnone]
  · intro pm2
    exact ⟨percentToPoint_getD e.x (LibV2.referenceWidth pm2),
      percentToPoint_getD e.y (LibV2.referenceHeight pm2)⟩

/-- Witness for C2 (amended): the percent entry `eC2` on a `100 × 200`
page, resolved by both variants. -/
theorem claim_C2_amended_witness :
    (∃ pos, Lib.resolveEntry [mW] eC2 = .ok pos
      ∧ pos.x = eC2.x.getD 0 / 100 * mW.width
      ∧ pos.y = mW.height - eC2.y.getD 0 / 100 * mW.height
          - (Lib.normalizeDimension eC2.height mW.height).getD 0
      ∧ pos.height = Lib.normalizeDimension eC2.height mW.height
      ∧ (eC2.height = none → (Lib.normalizeDimension eC2.height mW.height).getD 0 = 0))
    ∧ ((LibV2.resolveEntry (some mW) eC2).x
          = min (max (eC2.x.getD 0) 0) 100 / 100 * LibV2.referenceWidth (some mW)
        ∧ (LibV2.resolveEntry (some mW) eC2).y
          = min (max (eC2.y.getD 0) 0) 100 / 100 * LibV2.referenceHeight (some mW)) :=
  ⟨(claim_C2_amended [mW] eC2 mW rfl (by norm_num [mW]) (by norm_num [mW])
      (by norm_num [eC2]) (by norm_num [eC2])).1,
    (claim_C2_amended [mW] eC2 mW rfl (by norm_num [mW]) (by norm_num [mW])
      (by norm_num [eC2]) (by norm_num [eC2])).2 (some mW)⟩

/-- C3: an entry classified as absolute (`x > 100` or `y > 100`) resolves
to `absX = x · pageWidth` and `absY = y · pageHeight`, i.e. the raw values
are used as direct multipliers of the page span, not as literal points. -/
theorem claim_C3 (pm : List Lib.PageMetrics) (e : Lib.RawEntry)
    (m : Lib.PageMetrics) (hm : Lib.metricAt pm e = some m)
    (hw : m.width ≠ 0) (hh : m.height ≠ 0)
    (hxy : 100 < e.x.getD 0 ∨ 100 < e.y.getD 0) :
    ∃ pos, Lib.resolveEntry pm e = .ok pos
      ∧ pos.x = e.x.getD 0 * m.width
      ∧ pos.y = e.y.getD 0 * m.height := by
  have hne : ¬(e.x.getD 0 ≤ 100 ∧ e.y.getD 0 ≤ 100) := by
    rcases hxy with h | h
    · exact fun hc => absurd hc.1 (not_le.mpr h)
    · exact fun hc => absurd hc.2 (not_le.mpr h)
  exact ⟨_, resolveEntry_absolute pm e m hm (by tauto) hne, rfl, rfl⟩

/-- Witness for C3: the absolute entry `eC3` (`x = 200`) on a `100 × 200`
page resolves to `x · pageWidth = 20000`. -/
theorem claim_C3_witness :
    ∃ pos, Lib.resolveEntry [mW] eC3 = .ok pos
      ∧ pos.x = eC3.x.getD 0 * mW.width
      ∧ pos.y = eC3.y.getD 0 * mW.height :=
  claim_C3 [mW] eC3 mW rfl (by norm_num [mW]) (by norm_num [mW])
    (Or.inl (by norm_num [eC3]))

/-- C1 counterexample: the percent-based entry `x = 0, y = 100,
height = 10` — all within the claim's ranges — against positive page
metrics `100 × 100` resolves to `absY = −10 < 0`, so the claimed bound
`0 ≤ absY` fails once an optional height is present. -/
theorem claim_C1_counterexample :
    Lib.resolveEntry [⟨100, 100⟩] eC1 = .ok ⟨0, -10, none, some 10, 1, none⟩
    ∧ (-10 : ℚ) < 0 := by
  refine ⟨?_, by norm_num⟩
  norm_num [Lib.resolveEntry, Lib.metricAt, Lib.listGetInt, Lib.normalizeDimension, eC1]

/-- C1 (amended): for a percent-based entry with `0 ≤ x ≤ 100` and
`0 ≤ y ≤ 100` resolved against positive page metrics, the bounds
`0 ≤ absX ≤ pageWidth` and `0 ≤ absY ≤ pageHeight` hold provided the
resolved target height `h` is nonnegative and satisfies
`(y/100) · pageHeight + h ≤ pageHeight` — in particular whenever the
entry's height is absent (`h = 0`). -/
theorem claim_C1_amended (pm : List Lib.PageMetrics) (e : Lib.RawEntry)
    (m : Lib.PageMetrics) (hm : Lib.metricAt pm e = some m)
    (hw : 0 < m.width) (hh : 0 < m.height)
    (hx0 : 0 ≤ e.x.getD 0) (hx1 : e.x.getD 0 ≤ 100)
    (hy0 : 0 ≤ e.y.getD 0) (hy1 : e.y.getD 0 ≤ 100)
    (hhr0 : 0 ≤ (Lib.normalizeDimension e.height m.height).getD 0)
    (hhr1 : e.y.getD 0 / 100 * m.height
        + (Lib.normalizeDimension e.height m.height).getD 0 ≤ m.height) :
    ∃ pos, Lib.resolveEntry pm e = .ok pos
      ∧ 0 ≤ pos.x ∧ pos.x ≤ m.width ∧ 0 ≤ pos.y ∧ pos.y ≤ m.height := by
  have hz : ¬(m.width = 0 ∨ m.height = 0) := by
    push_neg
    exact ⟨ne_of_gt hw, ne_of_gt hh⟩
  refine ⟨_, resolveEntry_percent pm e m hm hz ⟨hx1, hy1⟩, ?_, ?_, ?_, ?_⟩
  · exact mul_nonneg (div_nonneg hx0 (by norm_num)) hw.le
  · have hle : e.x.getD 0 / 100 ≤ 1 := by
      rw [div_le_one (by norm_num : (0 : ℚ) < 100)]
      exact hx1
    calc e.x.getD 0 / 100 * m.width ≤ 1 * m.width :=
        mul_le_mul_of_nonneg_right hle hw.le
      _ = m.width := one_mul _
  · simp only
    linarith
  · have htop : 0 ≤ e.y.getD 0 / 100 * m.height :=
      mul_nonneg (div_nonneg hy0 (by norm_num)) hh.le
    simp only
    linarith

/-- Witness for C1 (amended): the height-free percent entry `eC2` on a
`100 × 200` page lands inside the page bounds. -/
theorem claim_C1_amended_witness :
    ∃ pos, Lib.resolveEntry [mW] eC2 = .ok pos
      ∧ 0 ≤ pos.x ∧ pos.x ≤ mW.width ∧ 0 ≤ pos.y ∧ pos.y ≤ mW.height :=
  claim_C1_amended [mW] eC2 mW rfl (by norm_num [mW]) (by norm_num [mW])
    (by norm_num [eC2]) (by norm_num [eC2]) (by norm_num [eC2]) (by norm_num [eC2])
    (by norm_num [eC2, Lib.normalizeDimension])
    (by norm_num [eC2, mW, Lib.normalizeDimension])

/-- C4 counterexample: on a 2-page document with raw page value `2`,
`drawTextAtPosition` normalizes to index `1` and succeeds, but the editor's
signature placement uses `2` directly as a 0-based index and raises
`Page 3 not found` — although the index `2 − 1 = 1` prescribed by the claim
does have a corresponding page.  So the claimed uniform `p ≥ 1 ↦ p − 1`
rule does not hold for every placement operation. -/
theorem claim_C4_counterexample :
    Editor.resolveTargetPage 2 (some editorPosC4) = .error "Page 3 not found"
    ∧ Lib.drawTextAtPosition [[], []] (some "t") (some posC4) (23/2) Lib.TEXT_PRIMARY
        = .ok [[], [Lib.PageOp.text ⟨"t", 5, 6, 23/2, Lib.TEXT_PRIMARY⟩]]
    ∧ Lib.listGetInt ([[], []] : List Lib.PdfPage) (2 - 1) ≠ none := by
  refine ⟨?_, ?_, ?_⟩
  · rfl
  · rfl
  · simp [Lib.listGetInt]

/-- C4 (amended): `drawTextAtPosition` (with a non-empty text and a
position) maps a raw page value `p ≥ 1` to index `p − 1` and uses `p < 1`
unchanged, raising its invalid-page-index error exactly when the resolved
index has no corresponding page; the editor component's signature
placement instead uses the raw page value directly as a 0-based index and
raises its page-not-found error exactly when that raw index has no
corresponding page. -/
theorem claim_C4_amended :
    (∀ (pages : List Lib.PdfPage) (t : String) (pos : Lib.ElementPosition)
        (size : ℚ) (color : Lib.Color), t ≠ "" →
      ((∃ msg, Lib.drawTextAtPosition pages (some t) (some pos) size color
          = .error msg)
        ↔ Lib.listGetInt pages
            (if pos.page ≥ 1 then pos.page - 1 else pos.page) = none))
    ∧ (∀ (numPages : ℕ) (p : Editor.ElementPosition),
        (∃ msg, Editor.resolveTargetPage numPages (some p) = .error msg)
          ↔ ¬(0 ≤ p.page ∧ p.page < (numPages : ℤ))) := by
  constructor
  · intro pages t pos size color ht
    simp only [Lib.drawTextAtPosition, if_neg ht]
    cases hl : Lib.listGetInt pages (if pos.page ≥ 1 then pos.page - 1 else pos.page) with
    | none => simp [hl]
    | some pg => simp [hl]
  · intro numPages p
    simp only [Editor.resolveTargetPage]
    split_ifs with h
    · simp [h]
    · simp [h]

/-- Witness for C4 (amended): the error-iff characterizations at a
single-page document with raw page value `2` and at a 2-page document for
the editor's resolution. -/
theorem claim_C4_amended_witness :
    ((∃ msg, Lib.drawTextAtPosition [[]] (some "a") (some posC4) 12 Lib.TEXT_PRIMARY
        = .error msg)
      ↔ Lib.listGetInt ([[]] : List Lib.PdfPage)
          (if posC4.page ≥ 1 then posC4.page - 1 else posC4.page) = none)
    ∧ ((∃ msg, Editor.resolveTargetPage 2 (some editorPosC4) = .error msg)
        ↔ ¬(0 ≤ editorPosC4.page ∧ editorPosC4.page < ((2 : ℕ) : ℤ))) :=
  ⟨claim_C4_amended.1 [[]] "a" posC4 12 Lib.TEXT_PRIMARY (by decide),
    claim_C4_amended.2 2 editorPosC4⟩

/-- Unfolding of `saveToHistory` at a state with a loaded pdf and undo
enabled. -/
theorem saveToHistory_eq (s : Editor.EditorState) (p : String)
    (hp : s.pdf = some p) (hu : s.enableUndo = true) :
    Editor.saveToHistory s =
      { s with pdfHistory := s.pdfHistory ++ [⟨p, s.modifiedPdfBlob⟩] } := by
  simp [Editor.saveToHistory, hp, hu]

/-- Unfolding of a successful `handleAddSignature` at a state with a loaded
pdf and undo enabled. -/
theorem handleAddSignature_ok (s : Editor.EditorState)
    (sigPos : Option Editor.ElementPosition) (edd : Bool) (env : Editor.MutEnv)
    (p url : String) (blob : Editor.Bytes)
    (hu : s.enableUndo = true) (hse : env.sigEmpty = false)
    (hguard : (sigPos.isNone && !edd) = false) (hp : s.pdf = some p)
    (hpipe : Editor.mutationPipeline env sigPos = .ok (url, blob)) :
    Editor.handleAddSignature sigPos edd env s =
      { s with
          pdf := some url
          modifiedPdfBlob := some blob
          pdfHistory := s.pdfHistory ++ [⟨p, s.modifiedPdfBlob⟩] } := by
  rw [Editor.handleAddSignature, hse, hguard, hp, hpipe]
  simp [saveToHistory_eq s p hp hu]

/-- C5: after exactly one successful mutation, `undo()` restores the
pre-mutation active snapshot and modified blob and removes the pushed
entry from the history stack; with an empty history stack, `undo()`
signals `Nothing to undo` and leaves the whole state unchanged.  (The
mutation pushes onto the history only when undo is enabled, so the claim
is taken over states with `enableUndo = true`.) -/
theorem claim_C5 (s : Editor.EditorState)
    (sigPos : Option Editor.ElementPosition) (edd : Bool) (env : Editor.MutEnv)
    (p url : String) (blob : Editor.Bytes)
    (hu : s.enableUndo = true) (hse : env.sigEmpty = false)
    (hguard : (sigPos.isNone && !edd) = false) (hp : s.pdf = some p)
    (hpipe : Editor.mutationPipeline env sigPos = .ok (url, blob)) :
    ((Editor.handleUndo (Editor.handleAddSignature sigPos edd env s)).1.pdf = s.pdf
      ∧ (Editor.handleUndo (Editor.handleAddSignature sigPos edd env s)).1.modifiedPdfBlob
          = s.modifiedPdfBlob
      ∧ (Editor.handleUndo (Editor.handleAddSignature sigPos edd env s)).1.pdfHistory
          = s.pdfHistory)
    ∧ (∀ t : Editor.EditorState, t.pdfHistory = [] →
        Editor.handleUndo t = (t, .info "Nothing to undo")) := by
  constructor
  · rw [handleAddSignature_ok s sigPos edd env p url blob hu hse hguard hp hpipe]
    rw [Editor.handleUndo]
    simp only [List.getLast?_concat]
    exact ⟨by simp [hp], by simp, by simp [List.dropLast_concat]⟩
  · intro t ht
    rw [Editor.handleUndo, ht]
    rfl

/-- Witness for C5: one successful mutation from the concrete state `sC5`
followed by `undo()` restores pdf, blob and history; and `undo()` on the
freshly loaded state (empty history) only toasts. -/
theorem claim_C5_witness :
    ((Editor.handleUndo (Editor.handleAddSignature none true envOk sC5)).1.pdf = sC5.pdf
      ∧ (Editor.handleUndo (Editor.handleAddSignature none true envOk sC5)).1.modifiedPdfBlob
          = sC5.modifiedPdfBlob
      ∧ (Editor.handleUndo (Editor.handleAddSignature none true envOk sC5)).1.pdfHistory
          = sC5.pdfHistory)
    ∧ (∀ t : Editor.EditorState, t.pdfHistory = [] →
        Editor.handleUndo t = (t, .info "Nothing to undo")) :=
  claim_C5 sC5 none true envOk "docA" "u1" [1] rfl rfl rfl rfl rfl

/-- Every operation leaves the out-of-band `originalPdf` field untouched. -/
theorem applyOp_originalPdf (s : Editor.EditorState) (op : Editor.EditorOp) :
    (Editor.applyOp s op).originalPdf = s.originalPdf := by
  cases op with
  | addSignature pos edd env =>
    rw [Editor.applyOp, Editor.handleAddSignature]
    split
    · rfl
    split
    · rfl
    split
    · rfl
    split
    · rfl
    rw [Editor.saveToHistory]
    split
    · split <;> rfl
    · rfl
  | undo =>
    rw [Editor.applyOp, Editor.handleUndo]
    split <;> rfl
  | reset =>
    rw [Editor.applyOp, Editor.handleReset]
    split <;> rfl

/-- `originalPdf` over any run of operations. -/
theorem runOps_originalPdf (ops : List Editor.EditorOp) (s : Editor.EditorState) :
    (Editor.runOps s ops).originalPdf = s.originalPdf := by
  induction ops generalizing s with
  | nil => rfl
  | cons op rest ih =>
    calc (Editor.runOps s (op :: rest)).originalPdf
        = (Editor.runOps (Editor.applyOp s op) rest).originalPdf := rfl
      _ = (Editor.applyOp s op).originalPdf := ih (Editor.applyOp s op)
      _ = s.originalPdf := applyOp_originalPdf s op

/-- C6: from any state reachable from a freshly loaded document by
mutations, undos and resets, `reset()` makes the active snapshot
byte-identical to the original snapshot, clears the modified blob, and
empties the history stack. -/
theorem claim_C6 (o : String) (u : Bool) (ops : List Editor.EditorOp) :
    (Editor.handleReset (Editor.runOps (Editor.initialState o u) ops)).pdf = some o
    ∧ (Editor.handleReset (Editor.runOps (Editor.initialState o u) ops)).modifiedPdfBlob
        = none
    ∧ (Editor.handleReset (Editor.runOps (Editor.initialState o u) ops)).pdfHistory
        = [] := by
  have horig : (Editor.runOps (Editor.initialState o u) ops).originalPdf = some o :=
    runOps_originalPdf ops (Editor.initialState o u)
  rw [Editor.handleReset, horig]
  exact ⟨rfl, rfl, rfl⟩

/-- C7 counterexample: starting from a freshly loaded document, the first
successful mutation pushes the active snapshot — which is the original
snapshot reference — onto the history stack, so the original is an element
of the stack, contradicting the claimed invariant. -/
theorem claim_C7_counterexample :
    (Editor.runOps (Editor.initialState "orig" true)
        [Editor.EditorOp.addSignature none true envOk]).pdfHistory
      = [⟨"orig", none⟩]
    ∧ (Editor.initialState "orig" true).originalPdf = some "orig" :=
  ⟨rfl, rfl⟩

/-- C7 (amended): the original snapshot reference is held in the dedicated
out-of-band `originalPdf` field, which no operation (mutation, undo or
reset) ever modifies; contrary to the original claim, the history stack is
not kept free of the original — the first mutation after load pushes the
active snapshot, which is the original. -/
theorem claim_C7_amended (s : Editor.EditorState) (op : Editor.EditorOp) :
    (Editor.applyOp s op).originalPdf = s.originalPdf :=
  applyOp_originalPdf s op

/-- C8: when any step of the signature-embedding mutation fails (document
load, target-page resolution, image embed, draw, or re-encode), the active
snapshot, the modified blob and the history stack are exactly as before the
attempt — no partial snapshot is published and no history entry is
pushed. -/
theorem claim_C8 (s : Editor.EditorState)
    (sigPos : Option Editor.ElementPosition) (edd : Bool) (env : Editor.MutEnv)
    (msg : String) (hfail : Editor.mutationPipeline env sigPos = .error msg) :
    (Editor.handleAddSignature sigPos edd env s).pdf = s.pdf
    ∧ (Editor.handleAddSignature sigPos edd env s).modifiedPdfBlob = s.modifiedPdfBlob
    ∧ (Editor.handleAddSignature sigPos edd env s).pdfHistory = s.pdfHistory := by
  rw [Editor.handleAddSignature]
  split
  · exact ⟨rfl, rfl, rfl⟩
  split
  · exact ⟨rfl, rfl, rfl⟩
  split
  · exact ⟨rfl, rfl, rfl⟩
  rw [hfail]
  exact ⟨rfl, rfl, rfl⟩

/-- Witness for C8: a mutation attempt targeting page `5` of a 3-page
document fails with `Page 6 not found` and leaves the state `sC5`
untouched. -/
theorem claim_C8_witness :
    (Editor.handleAddSignature (some posPage5) false envLoad3 sC5).pdf = sC5.pdf
    ∧ (Editor.handleAddSignature (some posPage5) false envLoad3 sC5).modifiedPdfBlob
        = sC5.modifiedPdfBlob
    ∧ (Editor.handleAddSignature (some posPage5) false envLoad3 sC5).pdfHistory
        = sC5.pdfHistory :=
  claim_C8 sC5 (some posPage5) false envLoad3 "Page 6 not found" rfl

/-- C9 counterexample: with both a name and an email enabled, the editor
component's synthesized metadata block below the signature emits the email
line first — the order is email, name, date, not the claimed name, email,
date. -/
theorem claim_C9_counterexample :
    Editor.editorMetadataBlock 0 100 "bob@example.com" "Alice" "Signed: today"
      = [⟨"bob@example.com", 3, 25, 23/2, Lib.TEXT_PRIMARY⟩,
         ⟨"Alice", 3, 15, 23/2, Lib.TEXT_PRIMARY⟩,
         ⟨"Signed: today", 3, 5, 11, Lib.TEXT_SECONDARY⟩]
    ∧ (Editor.editorMetadataBlock 0 100 "bob@example.com" "Alice" "Signed: today").map
        Lib.DrawnText.text ≠ ["Alice", "bob@example.com", "Signed: today"] := by
  have h1 : Editor.jsTrim "bob@example.com" = "bob@example.com" := by decide
  have h2 : Editor.jsTrim "Alice" = "Alice" := by decide
  have heq : Editor.editorMetadataBlock 0 100 "bob@example.com" "Alice" "Signed: today"
      = [⟨"bob@example.com", 3, 25, 23/2, Lib.TEXT_PRIMARY⟩,
         ⟨"Alice", 3, 15, 23/2, Lib.TEXT_PRIMARY⟩,
         ⟨"Signed: today", 3, 5, 11, Lib.TEXT_SECONDARY⟩] := by
    simp [Editor.editorMetadataBlock, h1, h2]
    try norm_num
  refine ⟨heq, ?_⟩
  rw [heq]
  decide

/-- C9 (amended): whenever the fallback metadata block is emitted, the
enabled lines are stacked at a fixed line height of `10`, each successive
enabled line exactly one line height below the previous one — in the fixed
order name, email, date for the helper `drawFallbackMetadataBlock`
(anchored `11` points below the signature target), but in the order email,
name, date for the editor component's synthesized block (anchored `75`
points below the signature target's top). -/
theorem claim_C9_amended (pos : Lib.ElementPosition) (n e d : Option String)
    (x y : ℚ) (se sn fd : String) :
    Lib.drawFallbackMetadataBlock pos ⟨n, e, d⟩
      = Lib.stackTexts pos.x (pos.y - 11) 10
          (Lib.optLine n (23/2) Lib.TEXT_PRIMARY
            ++ Lib.optLine e (23/2) Lib.TEXT_PRIMARY
            ++ Lib.optLine d 11 Lib.TEXT_SECONDARY)
    ∧ Editor.editorMetadataBlock x y se sn fd
      = Lib.stackTexts (x + 3) (y - 75) 10
          (Lib.optLine (some (Editor.jsTrim se)) (23/2) Lib.TEXT_PRIMARY
            ++ Lib.optLine (some (Editor.jsTrim sn)) (23/2) Lib.TEXT_PRIMARY
            ++ [(fd, 11, Lib.TEXT_SECONDARY)]) := by
  constructor
  · rcases n with _ | n <;> rcases e with _ | e <;> rcases d with _ | d <;>
      simp only [Lib.drawFallbackMetadataBlock, Lib.optLine, Lib.stackTexts,
        List.nil_append, List.append_nil] <;>
      split_ifs <;>
      norm_num [Lib.stackTexts, sub_sub]
  · simp only [Editor.editorMetadataBlock, Lib.optLine]
    split_ifs <;> norm_num [Lib.stackTexts, sub_sub]

end Spec2Proof
